import Mathlib

/-!
Verification of the `YouTubeMusicAnalytics` pipeline
(`src/youtube_music_analytics.py`) against its specification.

The pipeline operates on one in-memory tabular dataset loaded from a CSV
file.  We embed the dataset as a list of rows whose numeric cells are
`Option ℚ` — the value after `pd.to_numeric(..., errors='coerce')`, with
`none` standing for a missing value (NaN): unparseable or absent cells
become NaN in the source, and every comparison with NaN is false there,
which the `Option` pattern matches below reproduce.  File-system access is
embedded as an `Option Csv` (with `none` for a missing or unreadable file),
and the matplotlib rendering calls of the visualization stage as a
`Chart → Option RenderError` outcome map, since their success or failure is
external to the program.
-/

namespace YouTubeMusicAnalytics

/-- One row of the dataset, after the `pd.to_numeric` coercions of
`load_and_clean_data` (lines 44–52): `view_count`, `duration` and
`channel_follower_count` are numeric-or-missing, the remaining source
columns are strings-or-missing.  The three derived columns added at lines
63–65 are `none` until `addDerived` fills them. -/
structure Row where
  title : Option String := none
  channel : Option String := none
  view_count : Option ℚ := none
  duration : Option ℚ := none
  duration_string : Option String := none
  channel_follower_count : Option ℚ := none
  duration_minutes : Option ℚ := none
  views_in_billions : Option ℚ := none
  views_in_millions : Option ℚ := none
deriving DecidableEq

/-- A parsed CSV file: the header row and the data rows. -/
structure Csv where
  columns : List String
  rows : List Row
deriving DecidableEq

/-- Failure modes of the loader.  `dataLoadError` is the category of
failures of `pd.read_csv` itself (file missing or unreadable, line 38);
`schemaError c` is the category of the `KeyError` raised when the loader
accesses an absent column `c` (the `to_numeric` accesses at lines 44–52 and
the `dropna(subset=...)` at line 56). -/
inductive LoadError
  | dataLoadError
  | schemaError (column : String)
deriving DecidableEq

/-- Does the parsed CSV have the named column? -/
def hasCol (csv : Csv) (c : String) : Bool := csv.columns.contains c

/-- The predicate of `dropna(subset=['view_count', 'duration', 'channel'])`
(line 56): a row is kept exactly when none of the three critical fields is
missing. -/
def criticalPresent (r : Row) : Bool :=
  r.view_count.isSome && r.duration.isSome && r.channel.isSome

/-- The row filter performed by line 56. -/
def dropnaCritical (rows : List Row) : List Row := rows.filter criticalPresent

/-- The derived features added at lines 63–65:
`duration_minutes = duration / 60`, `views_in_billions = view_count / 1e9`,
`views_in_millions = view_count / 1e6` (missing propagates, as NaN
arithmetic does in the source). -/
def addDerived (r : Row) : Row :=
  { r with
    duration_minutes := r.duration.map (fun d => d / 60)
    views_in_billions := r.view_count.map (fun v => v / 1000000000)
    views_in_millions := r.view_count.map (fun v => v / 1000000) }

/-- `load_and_clean_data` (lines 30–69).  Reading a missing or unreadable
file fails first (line 38).  Then the column accesses happen in source
order — `to_numeric` on `view_count` (line 44), `duration` (line 47),
`channel_follower_count` (line 50), and the `dropna` subset needing
`channel` (line 56) — each raising a column error when the column is
absent.  Otherwise the critical-field filter runs, the removed count is
the original row count minus the cleaned row count (lines 55–57), and the
derived columns are added.  Returns the cleaned rows and the removed
count. -/
def load_and_clean_data (file : Option Csv) : Except LoadError (List Row × Nat) :=
  match file with
  | none => Except.error LoadError.dataLoadError
  | some csv =>
    if !hasCol csv "view_count" then Except.error (LoadError.schemaError "view_count")
    else if !hasCol csv "duration" then Except.error (LoadError.schemaError "duration")
    else if !hasCol csv "channel_follower_count" then
      Except.error (LoadError.schemaError "channel_follower_count")
    else if !hasCol csv "channel" then Except.error (LoadError.schemaError "channel")
    else
      let cleaned := dropnaCritical csv.rows
      let removed := csv.rows.length - cleaned.length
      Except.ok (cleaned.map addDerived, removed)

/-- Unfolding equation of the loader on a readable file. -/
theorem load_and_clean_data_some (csv : Csv) :
    load_and_clean_data (some csv) =
      (if !hasCol csv "view_count" then Except.error (LoadError.schemaError "view_count")
       else if !hasCol csv "duration" then Except.error (LoadError.schemaError "duration")
       else if !hasCol csv "channel_follower_count" then
         Except.error (LoadError.schemaError "channel_follower_count")
       else if !hasCol csv "channel" then Except.error (LoadError.schemaError "channel")
       else
         Except.ok ((dropnaCritical csv.rows).map addDerived,
           csv.rows.length - (dropnaCritical csv.rows).length)) := rfl

/-- The header of the scenario CSV: all columns present. -/
def fullColumns : List String :=
  ["title", "channel", "view_count", "duration", "duration_string", "channel_follower_count"]

/-- A complete sample row (all critical fields present). -/
def sampleRow : Row :=
  { title := some "Song A", channel := some "Channel A", view_count := some 2000000000,
    duration := some 240, duration_string := some "4:00",
    channel_follower_count := some 50000000 }

/-- The scenario CSV of the spec: 5 rows, of which exactly one (the third)
is missing `view_count`. -/
def csv5 : Csv :=
  { columns := fullColumns
    rows :=
      [sampleRow,
       { title := some "Song B", channel := some "Channel B", view_count := some 500000000,
         duration := some 180, duration_string := some "3:00",
         channel_follower_count := some 1000000 },
       { title := some "Song C", channel := some "Channel C", view_count := none,
         duration := some 200, duration_string := some "3:20",
         channel_follower_count := some 2000000 },
       { title := some "Song D", channel := some "Channel D", view_count := some 50000000,
         duration := some 150, duration_string := some "2:30",
         channel_follower_count := none },
       { title := some "Song E", channel := some "Channel E", view_count := some 1000000,
         duration := some 300, duration_string := some "5:00",
         channel_follower_count := some 300000 }] }

/-- The cleaned table the loader produces from `csv5`. -/
def cleaned5 : List Row := (dropnaCritical csv5.rows).map addDerived

/-- C1: loading then cleaning never increases the row count, leaves no row
with a missing critical field (`view_count`, `duration`, `channel`), and
reports as removed exactly the original row count minus the cleaned row
count; in particular the 5-row CSV with one row missing `view_count`
yields 4 cleaned rows and a removed count of 1. -/
theorem load_and_clean_row_counts :
    (∀ csv cleaned removed,
        load_and_clean_data (some csv) = Except.ok (cleaned, removed) →
          cleaned.length ≤ csv.rows.length
        ∧ (∀ r ∈ cleaned,
            r.view_count.isSome = true ∧ r.duration.isSome = true ∧ r.channel.isSome = true)
        ∧ removed = csv.rows.length - cleaned.length)
  ∧ (load_and_clean_data (some csv5)).map (fun p => (p.1.length, p.2)) =
      Except.ok (4, 1) := by
  constructor
  · intro csv cleaned removed h
    rw [load_and_clean_data_some] at h
    split at h
    · exact Except.noConfusion h
    · split at h
      · exact Except.noConfusion h
      · split at h
        · exact Except.noConfusion h
        · split at h
          · exact Except.noConfusion h
          · rw [Except.ok.injEq, Prod.mk.injEq] at h
            obtain ⟨hc, hr⟩ := h
            subst hc
            subst hr
            refine ⟨?_, ?_, ?_⟩
            · rw [List.length_map]
              exact List.length_filter_le _ _
            · intro r hr
              rw [List.mem_map] at hr
              obtain ⟨r0, hr0, hder⟩ := hr
              have hp : criticalPresent r0 = true :=
                ((List.mem_filter).mp hr0).2
              unfold criticalPresent at hp
              simp only [Bool.and_eq_true] at hp
              subst hder
              unfold addDerived
              exact ⟨hp.1.1, hp.1.2, hp.2⟩
            · rw [List.length_map]
  · rfl

/-- Witness for C1 at the scenario CSV. -/
theorem load_and_clean_row_counts_witness :
    cleaned5.length ≤ csv5.rows.length
  ∧ (∀ r ∈ cleaned5,
      r.view_count.isSome = true ∧ r.duration.isSome = true ∧ r.channel.isSome = true)
  ∧ 1 = csv5.rows.length - cleaned5.length :=
  load_and_clean_row_counts.1 csv5 cleaned5 1 rfl

/-- C6: the derived columns are the stated pure functions of the base
columns `duration` and `view_count`, and adding them is idempotent:
recomputing the derived columns on an already-derived row changes
nothing, because `addDerived` leaves the base columns untouched. -/
theorem addDerived_pure_idempotent (r : Row) :
    addDerived (addDerived r) = addDerived r
  ∧ (addDerived r).duration_minutes = r.duration.map (fun d => d / 60)
  ∧ (addDerived r).views_in_billions = r.view_count.map (fun v => v / 1000000000)
  ∧ (addDerived r).views_in_millions = r.view_count.map (fun v => v / 1000000) := by
  refine ⟨?_, rfl, rfl, rfl⟩
  unfold addDerived
  rfl

/-- A CSV whose header has all three required columns (`view_count`,
`duration`, `channel`) but lacks `channel_follower_count`. -/
def csvNoFollower : Csv :=
  { columns := ["title", "channel", "view_count", "duration", "duration_string"]
    rows := [sampleRow] }

/-- C3 counterexample: on a CSV that has every required column
(`view_count`, `duration`, `channel`) the loader still fails with a
column-missing (schema) error, because line 50 also accesses the
non-required column `channel_follower_count`.  So "fails with a
SchemaError exactly when a required column is absent" is false as
stated. -/
theorem schemaError_beyond_required_columns :
    (hasCol csvNoFollower "view_count" = true
     ∧ hasCol csvNoFollower "duration" = true
     ∧ hasCol csvNoFollower "channel" = true)
  ∧ load_and_clean_data (some csvNoFollower) =
      Except.error (LoadError.schemaError "channel_follower_count") :=
  ⟨⟨rfl, rfl, rfl⟩, rfl⟩

/-- C3 (amended): the loader fails with `dataLoadError` exactly when the
file is missing or unreadable, and with a schema (column-missing) error
exactly when one of the four columns it accesses — `view_count`,
`duration`, `channel_follower_count`, `channel` — is absent from the
parsed CSV. -/
theorem load_error_characterization (csv : Csv) :
    load_and_clean_data none = Except.error LoadError.dataLoadError
  ∧ (∀ e, load_and_clean_data (some csv) = Except.error e → ∃ c, e = LoadError.schemaError c)
  ∧ ((∃ c, load_and_clean_data (some csv) = Except.error (LoadError.schemaError c)) ↔
      ¬(hasCol csv "view_count" = true ∧ hasCol csv "duration" = true
        ∧ hasCol csv "channel_follower_count" = true ∧ hasCol csv "channel" = true)) := by
  refine ⟨rfl, ?_, ?_⟩
  · intro e h
    rw [load_and_clean_data_some] at h
    split at h
    · exact ⟨"view_count", (Except.error.injEq _ _ ▸ h).symm⟩
    · split at h
      · exact ⟨"duration", (Except.error.injEq _ _ ▸ h).symm⟩
      · split at h
        · exact ⟨"channel_follower_count", (Except.error.injEq _ _ ▸ h).symm⟩
        · split at h
          · exact ⟨"channel", (Except.error.injEq _ _ ▸ h).symm⟩
          · exact Except.noConfusion h
  · rw [load_and_clean_data_some]
    cases hv : hasCol csv "view_count" <;> cases hd : hasCol csv "duration" <;>
      cases hf : hasCol csv "channel_follower_count" <;> cases hc : hasCol csv "channel" <;>
      simp

/-- Witness for C3 (amended) at the CSV lacking `channel_follower_count`. -/
theorem load_error_characterization_witness :
    ∃ c, load_and_clean_data (some csvNoFollower) = Except.error (LoadError.schemaError c) :=
  (load_error_characterization csvNoFollower).2.2.mpr (by decide)

/-- The row predicate of `df[df['view_count'] >= q]` (lines 172, 173):
a NaN (missing) value compares false, as in pandas. -/
def viewGE (q : ℚ) (r : Row) : Bool :=
  match r.view_count with
  | some v => decide (q ≤ v)
  | none => false

/-- The row predicate of `df[df['view_count'] < q]` (lines 173, 174). -/
def viewLT (q : ℚ) (r : Row) : Bool :=
  match r.view_count with
  | some v => decide (v < q)
  | none => false

/-- `mega_hits` (line 172): rows with at least 1e9 views. -/
def megaHitsCount (rows : List Row) : Nat :=
  (rows.filter (viewGE 1000000000)).length

/-- `popular` (line 173): rows with views in `[1e8, 1e9)`. -/
def popularCount (rows : List Row) : Nat :=
  (rows.filter (fun r => viewGE 100000000 r && viewLT 1000000000 r)).length

/-- `moderate` (line 174): rows with fewer than 1e8 views. -/
def moderateCount (rows : List Row) : Nat :=
  (rows.filter (viewLT 100000000)).length

/-- The expression `part / len(self.df) * 100` of lines 177–179: a plain
integer division that raises `ZeroDivisionError` when the cleaned dataset
is empty, embedded as `none` in that case. -/
def pct (part total : Nat) : Option ℚ :=
  if total = 0 then none else some ((part : ℚ) / (total : ℚ) * 100)

/-- The three popularity-category percentages printed at lines 177–179,
`none` when any of the divisions raises (empty dataset). -/
def popularityPercentages (rows : List Row) : Option (ℚ × ℚ × ℚ) :=
  match pct (megaHitsCount rows) rows.length, pct (popularCount rows) rows.length,
      pct (moderateCount rows) rows.length with
  | some a, some b, some c => some (a, b, c)
  | _, _, _ => none

/-- On a dataset whose `view_count` is present in every row (as after
cleaning), the three popularity buckets partition the rows. -/
theorem bucket_counts_partition (rows : List Row)
    (hall : ∀ r ∈ rows, r.view_count.isSome = true) :
    megaHitsCount rows + popularCount rows + moderateCount rows = rows.length := by
  induction rows with
  | nil => rfl
  | cons r rs ih =>
    have hr : r.view_count.isSome = true := hall r (by simp)
    have ihh := ih (fun x hx => hall x (by simp [hx]))
    obtain ⟨v, hv⟩ := Option.isSome_iff_exists.mp hr
    simp only [megaHitsCount, popularCount, moderateCount, List.filter_cons, viewGE, viewLT,
      hv, List.length_cons] at ihh ⊢
    by_cases h1 : (1000000000 : ℚ) ≤ v
    · have h2 : (100000000 : ℚ) ≤ v := le_trans (by norm_num) h1
      have h3 : ¬v < (1000000000 : ℚ) := not_lt.mpr h1
      have h4 : ¬v < (100000000 : ℚ) := not_lt.mpr h2
      simp [h1, h3, h4]
      omega
    · by_cases h2 : (100000000 : ℚ) ≤ v
      · have h3 : v < (1000000000 : ℚ) := not_le.mp h1
        have h4 : ¬v < (100000000 : ℚ) := not_lt.mpr h2
        simp [h1, h2, h3, h4]
        omega
      · have h3 : v < (100000000 : ℚ) := not_le.mp h2
        have h4 : v < (1000000000 : ℚ) := lt_trans h3 (by norm_num)
        simp [h1, h2, h3, h4]
        omega

/-- C4: on every non-empty cleaned dataset (every row has a `view_count`),
the three popularity buckets partition the rows — their counts sum to the
row count — and the three reported percentages are defined and sum to
exactly 100 (the embedding computes in `ℚ`, so no rounding occurs). -/
theorem popularity_buckets_and_percentages (rows : List Row)
    (hall : ∀ r ∈ rows, r.view_count.isSome = true) (hne : rows ≠ []) :
    megaHitsCount rows + popularCount rows + moderateCount rows = rows.length
  ∧ ∃ a b c, popularityPercentages rows = some (a, b, c) ∧ a + b + c = 100 := by
  have hpart := bucket_counts_partition rows hall
  refine ⟨hpart, ?_⟩
  have hn : rows.length ≠ 0 := Nat.pos_iff_ne_zero.mp (List.length_pos.mpr hne)
  refine ⟨(megaHitsCount rows : ℚ) / (rows.length : ℚ) * 100,
          (popularCount rows : ℚ) / (rows.length : ℚ) * 100,
          (moderateCount rows : ℚ) / (rows.length : ℚ) * 100,
          by simp [popularityPercentages, pct, hn], ?_⟩
  have hq : (rows.length : ℚ) ≠ 0 := Nat.cast_ne_zero.mpr hn
  have hcast : (megaHitsCount rows : ℚ) + (popularCount rows : ℚ) + (moderateCount rows : ℚ) =
      (rows.length : ℚ) := by
    exact_mod_cast congrArg (fun n : Nat => (n : ℚ)) hpart
  field_simp
  linarith [hcast]

/-- Witness for C4 at a one-row dataset. -/
theorem popularity_buckets_and_percentages_witness :
    megaHitsCount [sampleRow] + popularCount [sampleRow] + moderateCount [sampleRow] =
      [sampleRow].length
  ∧ ∃ a b c, popularityPercentages [sampleRow] = some (a, b, c) ∧ a + b + c = 100 :=
  popularity_buckets_and_percentages [sampleRow] (by decide) (by decide)

/-- C10: the percentage computation of the statistical-analysis stage
divides by the cleaned row count, so on an empty cleaned dataset it raises
(`none` in the embedding); on any non-empty dataset it is defined.  The
stage thus has the implicit precondition that the cleaned dataset is
non-empty. -/
theorem popularity_percentages_need_nonempty (rows : List Row) :
    (rows = [] → popularityPercentages rows = none)
  ∧ (rows ≠ [] → (popularityPercentages rows).isSome = true) := by
  constructor
  · rintro rfl
    rfl
  · intro h
    have hn : rows.length ≠ 0 := Nat.pos_iff_ne_zero.mp (List.length_pos.mpr h)
    simp [popularityPercentages, pct, hn]

/-- Witness for C10 at the empty and a one-row dataset. -/
theorem popularity_percentages_need_nonempty_witness :
    popularityPercentages [] = none ∧ (popularityPercentages [sampleRow]).isSome = true :=
  ⟨(popularity_percentages_need_nonempty []).1 rfl,
   (popularity_percentages_need_nonempty [sampleRow]).2 (by decide)⟩

/-- The frame `df[['view_count', 'duration', 'channel_follower_count']].dropna()`
of line 161: rows with no missing value in any of the three columns. -/
def correlationData (rows : List Row) : List Row :=
  rows.filter (fun r =>
    r.view_count.isSome && r.duration.isSome && r.channel_follower_count.isSome)

/-- The paired observations for the duration-versus-views correlation:
rows contributing a value in both columns. -/
def durationViewPairs (rows : List Row) : List (ℚ × ℚ) :=
  rows.filterMap (fun r =>
    match r.duration, r.view_count with
    | some d, some v => some (d, v)
    | _, _ => none)

/-- The paired observations for the followers-versus-views correlation. -/
def followerViewPairs (rows : List Row) : List (ℚ × ℚ) :=
  rows.filterMap (fun r =>
    match r.channel_follower_count, r.view_count with
    | some f, some v => some (f, v)
    | _, _ => none)

/-- The Pearson correlation of `Series.corr` (lines 164, 168), embedded by
its defining sums: with `n` observations, `vx = n·Σx² − (Σx)²` and
`vy = n·Σy² − (Σy)²` (each `n²` times a variance), the correlation is
`(n·Σxy − Σx·Σy) / √(vx·vy)`.  The square root is irrational in general,
so the embedding returns the pair (numerator, `vx·vy`) determining it, and
`none` exactly when a variance is zero — the case (including `n < 2`) in
which the float computation yields NaN, i.e. an undefined correlation. -/
def pearsonParts (ps : List (ℚ × ℚ)) : Option (ℚ × ℚ) :=
  if (ps.length : ℚ) * (ps.map (fun p => p.1 * p.1)).sum -
       (ps.map Prod.fst).sum * (ps.map Prod.fst).sum = 0
     ∨ (ps.length : ℚ) * (ps.map (fun p => p.2 * p.2)).sum -
       (ps.map Prod.snd).sum * (ps.map Prod.snd).sum = 0 then none
  else
    some ((ps.length : ℚ) * (ps.map (fun p => p.1 * p.2)).sum -
            (ps.map Prod.fst).sum * (ps.map Prod.snd).sum,
          ((ps.length : ℚ) * (ps.map (fun p => p.1 * p.1)).sum -
             (ps.map Prod.fst).sum * (ps.map Prod.fst).sum) *
          ((ps.length : ℚ) * (ps.map (fun p => p.2 * p.2)).sum -
             (ps.map Prod.snd).sum * (ps.map Prod.snd).sum))

/-- The duration-versus-views correlation as reported by
`statistical_analysis` (lines 163–165): computed on `correlationData`
only when that frame is non-empty, `none` when it is skipped or NaN. -/
def corrDurationViews (rows : List Row) : Option (ℚ × ℚ) :=
  if 0 < (correlationData rows).length then
    pearsonParts (durationViewPairs (correlationData rows))
  else none

/-- The followers-versus-views correlation as reported at lines 167–169,
behind the additional `notna().any()` guard. -/
def corrFollowersViews (rows : List Row) : Option (ℚ × ℚ) :=
  if 0 < (correlationData rows).length then
    if (correlationData rows).any (fun r => r.channel_follower_count.isSome) then
      pearsonParts (followerViewPairs (correlationData rows))
    else none
  else none

/-- Fewer than two observations force a zero variance term, hence an
undefined (NaN) Pearson correlation. -/
theorem pearsonParts_short (ps : List (ℚ × ℚ)) (h : ps.length < 2) :
    pearsonParts ps = none := by
  match ps with
  | [] => simp [pearsonParts]
  | [p] => simp [pearsonParts]
  | p :: q :: rest => exact absurd h (by simp)

/-- C7: every row used for a correlation has no missing value in either
column involved (the `dropna` frame has all three columns present), and
whenever fewer than 2 valid paired observations exist for a pair of
columns, that pair's correlation is reported as undefined (`none`), never
as a number. -/
theorem correlation_valid_pairs_guard (rows : List Row) :
    (∀ r ∈ correlationData rows,
        r.view_count.isSome = true ∧ r.duration.isSome = true
        ∧ r.channel_follower_count.isSome = true)
  ∧ ((durationViewPairs rows).length < 2 → corrDurationViews rows = none)
  ∧ ((followerViewPairs rows).length < 2 → corrFollowersViews rows = none) := by
  refine ⟨?_, ?_, ?_⟩
  · intro r hr
    have hp := (List.mem_filter.mp hr).2
    simp only [Bool.and_eq_true] at hp
    exact ⟨hp.1.1, hp.1.2, hp.2⟩
  · intro h
    unfold corrDurationViews
    split
    · apply pearsonParts_short
      have hsub : List.Sublist (durationViewPairs (correlationData rows))
          (durationViewPairs rows) :=
        List.Sublist.filterMap _ (List.filter_sublist rows)
      exact lt_of_le_of_lt hsub.length_le h
    · rfl
  · intro h
    unfold corrFollowersViews
    split
    · split
      · apply pearsonParts_short
        have hsub : List.Sublist (followerViewPairs (correlationData rows))
            (followerViewPairs rows) :=
          List.Sublist.filterMap _ (List.filter_sublist rows)
        exact lt_of_le_of_lt hsub.length_le h
      · rfl
    · rfl

/-- Witness for C7 at the empty dataset. -/
theorem correlation_valid_pairs_guard_witness :
    corrDurationViews [] = none ∧ corrFollowersViews [] = none :=
  ⟨(correlation_valid_pairs_guard []).2.1 (by decide),
   (correlation_valid_pairs_guard []).2.2 (by decide)⟩

/-- The nine charts of `create_visualizations` (lines 187–360), in source
order. -/
inductive Chart
  | topSongs
  | topChannels
  | viewDistribution
  | durationVsViews
  | durationDistribution
  | followersVsViews
  | popularityPie
  | channelsByCount
  | correlationHeatmap
deriving DecidableEq

/-- A failure of the matplotlib calls rendering one chart. -/
inductive RenderError
  | renderFailed
deriving DecidableEq

/-- `len(followers_data)` at lines 289–290: the number of rows whose
`channel_follower_count` is not missing. -/
def followersDataCount (rows : List Row) : Nat :=
  (rows.filter (fun r => r.channel_follower_count.isSome)).length

/-- The charts `create_visualizations` attempts, in source order.  Only
the followers-versus-views chart is conditional: it is attempted exactly
when strictly more than 100 rows have follower data (line 290).  Every
other chart is attempted unconditionally. -/
def chartList (rows : List Row) : List Chart :=
  [Chart.topSongs, Chart.topChannels, Chart.viewDistribution, Chart.durationVsViews,
   Chart.durationDistribution]
  ++ (if 100 < followersDataCount rows then [Chart.followersVsViews] else [])
  ++ [Chart.popularityPie, Chart.channelsByCount, Chart.correlationHeatmap]

/-- Sequential rendering as the source performs it: there is no
per-chart exception handler in `create_visualizations`, so the first
failing render raises out of the whole stage and no later chart is
attempted.  Returns the list of charts rendered before the failure and
the escaping error, if any. -/
def renderCharts (render : Chart → Option RenderError) :
    List Chart → List Chart × Option RenderError
  | [] => ([], none)
  | c :: cs =>
    match render c with
    | some e => ([], some e)
    | none => ((renderCharts render cs).1.cons c, (renderCharts render cs).2)

/-- `create_visualizations` (lines 187–360), parameterized by the outcome
of the matplotlib rendering of each chart: the rendered charts and the
error escaping the stage, if any. -/
def create_visualizations (rows : List Row) (render : Chart → Option RenderError) :
    List Chart × Option RenderError :=
  renderCharts render (chartList rows)

/-- A rendering outcome in which the very first chart fails. -/
def renderFailFirst : Chart → Option RenderError :=
  fun c => if c = Chart.topSongs then some RenderError.renderFailed else none

/-- C2 counterexample: when rendering the first chart fails, the error is
not caught inside the visualization stage — it escapes — and the second
chart (and every later one) is not rendered.  So "a failure while
rendering any single chart is caught ... and every remaining chart is
still rendered" is false as stated. -/
theorem chart_failure_aborts_stage :
    (create_visualizations [] renderFailFirst).2 = some RenderError.renderFailed
  ∧ Chart.topChannels ∈ chartList []
  ∧ Chart.topChannels ∉ (create_visualizations [] renderFailFirst).1 := by
  refine ⟨rfl, by decide, by decide⟩

/-- C2 (amended): `create_visualizations` has no per-chart error
handling: it renders exactly the charts preceding the first failure, and
the first failure (if any) escapes the stage — propagating to
`run_analysis` — so the charts after it are never rendered. -/
theorem visualization_aborts_on_first_failure (rows : List Row)
    (render : Chart → Option RenderError) :
    create_visualizations rows render =
      ((chartList rows).takeWhile (fun c => (render c).isNone),
       ((chartList rows).dropWhile (fun c => (render c).isNone)).head?.bind render) := by
  unfold create_visualizations
  induction chartList rows with
  | nil => rfl
  | cons c cs ih =>
    cases hc : render c with
    | some e =>
      simp [renderCharts, hc, List.takeWhile_cons, List.dropWhile_cons]
    | none =>
      simp [renderCharts, hc, List.takeWhile_cons, List.dropWhile_cons, ih]

/-- A rendering outcome in which every matplotlib call succeeds. -/
def renderOk : Chart → Option RenderError := fun _ => none

/-- C8: when fewer than 100 rows have follower data, the
followers-versus-views chart is skipped and (with rendering succeeding)
all eight other charts are produced, with no error. -/
theorem followers_chart_skipped (rows : List Row) (h : followersDataCount rows < 100) :
    create_visualizations rows renderOk =
      ([Chart.topSongs, Chart.topChannels, Chart.viewDistribution, Chart.durationVsViews,
        Chart.durationDistribution, Chart.popularityPie, Chart.channelsByCount,
        Chart.correlationHeatmap], none)
  ∧ Chart.followersVsViews ∉ (create_visualizations rows renderOk).1 := by
  have hng : ¬100 < followersDataCount rows := by omega
  constructor
  · unfold create_visualizations chartList
    rw [if_neg hng]
    rfl
  · unfold create_visualizations chartList
    rw [if_neg hng]
    decide

/-- Witness for C8 at the empty dataset. -/
theorem followers_chart_skipped_witness :
    create_visualizations [] renderOk =
      ([Chart.topSongs, Chart.topChannels, Chart.viewDistribution, Chart.durationVsViews,
        Chart.durationDistribution, Chart.popularityPie, Chart.channelsByCount,
        Chart.correlationHeatmap], none)
  ∧ Chart.followersVsViews ∉ (create_visualizations [] renderOk).1 :=
  followers_chart_skipped [] (by decide)

/-- The outcome of each of the five pipeline stages called inside the
`try` block of `run_analysis` (lines 436–450): `none` when the stage
returns normally, `some e` when it raises the error `e`. -/
structure StageResults where
  loadStage : Option String
  edaStage : Option String
  statsStage : Option String
  vizStage : Option String
  reportStage : Option String
deriving DecidableEq

/-- The stage outcomes in pipeline order. -/
def stageOutcomes (s : StageResults) : List (Option String) :=
  [s.loadStage, s.edaStage, s.statsStage, s.vizStage, s.reportStage]

/-- The body of the `try` block: the stages run in order and the first
raised error escapes the block, so later stages are not attempted.
Returns the number of stages attempted and the escaping error, if any. -/
def pipelineAttempt (s : StageResults) : Nat × Option String :=
  match s.loadStage with
  | some e => (1, some e)
  | none =>
    match s.edaStage with
    | some e => (2, some e)
    | none =>
      match s.statsStage with
      | some e => (3, some e)
      | none =>
        match s.vizStage with
        | some e => (4, some e)
        | none =>
          match s.reportStage with
          | some e => (5, some e)
          | none => (5, none)

/-- The two ways `run_analysis` returns to its caller: the full pipeline
succeeded, or an error was caught by the `except` clause (lines 463–466)
and printed with a traceback.  There is no constructor for a propagated
exception: the embedding of `run_analysis` is a total function into this
type, matching the catch-all handler of the source. -/
inductive RunResult
  | success
  | caught (e : String)
deriving DecidableEq

/-- `run_analysis` (lines 434–466): run the stages, catch any pipeline
error, and return normally either way. -/
def run_analysis (s : StageResults) : RunResult :=
  match (pipelineAttempt s).2 with
  | none => RunResult.success
  | some e => RunResult.caught e

/-- The first stage error, in pipeline order. -/
def firstStageError (s : StageResults) : Option String :=
  (stageOutcomes s).findSome? id

/-- How many stages run before the pipeline stops: all five on success,
otherwise up to and including the first failing stage. -/
def attemptedStages (s : StageResults) : Nat :=
  min (((stageOutcomes s).takeWhile Option.isNone).length + 1) (stageOutcomes s).length

/-- C9: `run_analysis` always returns normally — the result is `success`
or a `caught` error, with `success` exactly when no stage fails — the
caught error is the first stage error, and the stages after the first
failing one are not attempted. -/
theorem run_analysis_catches_all (s : StageResults) :
    (run_analysis s = RunResult.success ∨
      ∃ e, run_analysis s = RunResult.caught e)
  ∧ (run_analysis s = RunResult.success ↔ ∀ o ∈ stageOutcomes s, o = none)
  ∧ (pipelineAttempt s).2 = firstStageError s
  ∧ (pipelineAttempt s).1 = attemptedStages s := by
  obtain ⟨l, d, st, v, rp⟩ := s
  cases l <;> cases d <;> cases st <;> cases v <;> cases rp <;>
    simp [run_analysis, pipelineAttempt, firstStageError, attemptedStages, stageOutcomes]

/-- Witness for C9 at a run whose third stage fails. -/
theorem run_analysis_catches_all_witness :
    (run_analysis ⟨none, none, some "boom", none, none⟩ = RunResult.success ∨
      ∃ e, run_analysis ⟨none, none, some "boom", none, none⟩ = RunResult.caught e)
  ∧ (run_analysis ⟨none, none, some "boom", none, none⟩ = RunResult.success ↔
      ∀ o ∈ stageOutcomes ⟨none, none, some "boom", none, none⟩, o = none)
  ∧ (pipelineAttempt ⟨none, none, some "boom", none, none⟩).2 =
      firstStageError ⟨none, none, some "boom", none, none⟩
  ∧ (pipelineAttempt ⟨none, none, some "boom", none, none⟩).1 =
      attemptedStages ⟨none, none, some "boom", none, none⟩ :=
  run_analysis_catches_all ⟨none, none, some "boom", none, none⟩

end YouTubeMusicAnalytics
